import Mathlib

/-!
Verification of the core of the `lattice` content pipeline (Go).

The development shallowly embeds, from the source:
  * the subtitle parser (`pkg/youtube`): `CleanTranscript`, `ParseSRT`,
    the JSON3 event collection of `ParseJSON3`;
  * the caption locator (`pkg/youtube/client.go`): `extractSubtitleURL`
    and `findBestSubtitleURL` over untyped JSON-like metadata;
  * the Claude service (`internal/services/claude_service.go`):
    `GenerateQuiz` and the pipeline orchestrator `ProcessYouTubeURL`,
    with its collaborator boundaries (database repositories, the yt-dlp
    client and the Claude client) passed in as explicit environments and
    the external calls it makes recorded in a call log;
  * the repositories (`internal/db`): the empty-batch fast path of
    `CreateQuizBatch` / `CreateGeneratedContentBatch` over a transaction
    environment, and the in-memory scan of
    `GetGeneratedContentByConceptIDs`.

Go regular-expression and standard-library string operations are
embedded as executable character-list functions with the same semantics
(`\s+` collapse, `strings.ReplaceAll`, `strings.Split`,
`strings.TrimSpace`, `bytes.Index`); `encoding/json.Unmarshal` is an
injected oracle parameter, since it is standard-library code outside the
repository.
-/

namespace LatticeSrc

/-! ## Character and string utilities (Go standard library semantics) -/

/-- `leadMatch pat s` is true when `pat` is an initial segment of `s`. -/
def leadMatch : List Char → List Char → Bool
  | [], _ => true
  | _ :: _, [] => false
  | p :: ps, c :: cs => p == c && leadMatch ps cs

/-- `occursIn pat s` is true when `pat` occurs as a contiguous run inside
`s`; it models Go `strings.Contains` / `bytes.Contains`. -/
def occursIn (pat : List Char) : List Char → Bool
  | [] => leadMatch pat []
  | c :: cs => leadMatch pat (c :: cs) || occursIn pat cs

/-- Index of the first occurrence of `pat` in `s`, models Go
`bytes.Index` (`none` for Go's `-1`). -/
def indexOfSub (pat : List Char) : List Char → Option Nat
  | [] => if leadMatch pat [] then some 0 else none
  | c :: cs =>
    if leadMatch pat (c :: cs) then some 0
    else (indexOfSub pat cs).map (fun i => i + 1)

/-- The character class matched by `\s` in Go's RE2 regular expressions:
`[\t\n\f\r ]`. -/
def isRE2Space (c : Char) : Bool :=
  c == '\t' || c == '\n' || c == '\x0c' || c == '\r' || c == ' '

/-- `unicode.IsSpace` as used by Go `strings.TrimSpace`. -/
def isUnicodeSpace (c : Char) : Bool :=
  c == '\t' || c == '\n' || c == '\x0b' || c == '\x0c' || c == '\r' || c == ' ' ||
  c == '\x85' || c == '\xa0' || c == '\u1680' ||
  ('\u2000' ≤ c && c ≤ '\u200a') ||
  c == '\u2028' || c == '\u2029' || c == '\u202f' || c == '\u205f' || c == '\u3000'

/-- Worker for `collapseWhitespace`; the flag records whether the scan is
inside a whitespace run that has already emitted its single space. -/
def collapseWsAux : Bool → List Char → List Char
  | _, [] => []
  | inRun, c :: cs =>
    if isRE2Space c then
      if inRun then collapseWsAux true cs else ' ' :: collapseWsAux true cs
    else c :: collapseWsAux false cs

/-- `regexp.MustCompile("\s+").ReplaceAllString(text, " ")`: every maximal
run of RE2 whitespace becomes a single space. -/
def collapseWhitespace (cs : List Char) : List Char :=
  collapseWsAux false cs

/-- Go `strings.TrimSpace`: drop `unicode.IsSpace` characters from both
ends. -/
def trimSpace (cs : List Char) : List Char :=
  ((cs.dropWhile isUnicodeSpace).reverse.dropWhile isUnicodeSpace).reverse

/-- Worker for `goReplaceAllDrop`: delete every non-overlapping leftmost
occurrence of the pattern `p :: ps`.  The fuel only bounds the recursion
depth; each step consumes at least one character, so the wrapper's fuel
of `s.length + 1` is never exhausted. -/
def removeAllFuel (p : Char) (ps : List Char) : Nat → List Char → List Char
  | 0, s => s
  | _ + 1, [] => []
  | fuel + 1, c :: rest =>
    if leadMatch (p :: ps) (c :: rest) then removeAllFuel p ps fuel (rest.drop ps.length)
    else c :: removeAllFuel p ps fuel rest

/-- Go `strings.ReplaceAll(s, pat, "")` for a non-empty `pat` (the empty
pattern never arises below). -/
def goReplaceAllDrop (pat : String) (s : List Char) : List Char :=
  match pat.data with
  | [] => s
  | p :: ps => removeAllFuel p ps (s.length + 1) s

/-- Worker for `goSplit`: split on every non-overlapping leftmost
occurrence of `p :: ps`.  Fuel as in `removeAllFuel`. -/
def splitFuel (p : Char) (ps : List Char) : Nat → List Char → List (List Char)
  | 0, s => [s]
  | _ + 1, [] => [[]]
  | fuel + 1, c :: rest =>
    if leadMatch (p :: ps) (c :: rest) then
      [] :: splitFuel p ps fuel (rest.drop ps.length)
    else
      match splitFuel p ps fuel rest with
      | [] => [[c]]
      | t :: ts => (c :: t) :: ts

/-- Go `strings.Split(s, sep)` for a non-empty separator (the empty
separator never arises below). -/
def goSplit (sep : String) (s : List Char) : List (List Char) :=
  match sep.data with
  | [] => [s]
  | p :: ps => splitFuel p ps (s.length + 1) s

/-- The accumulation pattern of the parsers' `strings.Builder` loops:
each collected part is written followed by a single space. -/
def gatherSp : List (List Char) → List Char
  | [] => []
  | part :: parts => part ++ ' ' :: gatherSp parts

/-! ## Subtitle parser (`pkg/youtube`, subtitle parsing source file) -/

/-- `SubtitleParser.CleanTranscript`: collapse whitespace runs, then
delete the three noise tokens, then trim — in exactly the source's
order. -/
def cleanTranscript (s : String) : String :=
  let t := collapseWhitespace s.data
  let t := goReplaceAllDrop "[Music]" t
  let t := goReplaceAllDrop "[Applause]" t
  let t := goReplaceAllDrop "[Laughter]" t
  String.mk (trimSpace t)

/-- The lines of one SRT block: `strings.Split(strings.TrimSpace(block), "\n")`. -/
def srtBlockLines (block : List Char) : List (List Char) :=
  goSplit "\n" (trimSpace block)

/-- The text contributed by one SRT block: blocks with at least three
lines contribute `strings.Join(lines[2:], " ")` (the first two lines are
the sequence number and the time range); shorter blocks contribute
nothing. -/
def srtBlockText (block : List Char) : Option (List Char) :=
  let lines := srtBlockLines block
  if 3 ≤ lines.length then some (List.intercalate [' '] (lines.drop 2)) else none

/-- All text parts of an SRT document, in file order: the input is split
on blank lines (`"\n\n"`) into blocks and each block contributes via
`srtBlockText`. -/
def srtTextParts (content : List Char) : List (List Char) :=
  (goSplit "\n\n" content).filterMap srtBlockText

/-- `SubtitleParser.ParseSRT`.  The Go function writes each block's text
plus a trailing space to a builder and finally trims; its error result
is always nil, so the embedding returns the string directly. -/
def parseSRT (data : String) : String :=
  String.mk (trimSpace (gatherSp (srtTextParts data.data)))

/-- The segment texts collected by `SubtitleParser.ParseJSON3`'s event
loop: every segment string that is neither empty nor a bare newline, in
document order.  Events are represented by their segments' `utf8`
fields. -/
def json3Parts (events : List (List String)) : List (List Char) :=
  events.foldl
    (fun acc segs =>
      acc ++ segs.filterMap (fun sg => if sg != "" && sg != "\n" then some sg.data else none))
    []

/-- The builder/trim phase of `SubtitleParser.ParseJSON3` after a
successful `json.Unmarshal`. -/
def json3Collect (events : List (List String)) : String :=
  String.mk (trimSpace (gatherSp (json3Parts events)))

/-- `SubtitleParser.ParseJSON3`: `json.Unmarshal` (standard library,
injected as an oracle producing the events' segment texts) followed by
the collection loop. -/
def parseJSON3 (unmarshal : String → Except String (List (List String)))
    (data : String) : Except String String :=
  match unmarshal data with
  | .error e => .error ("failed to parse JSON3: " ++ e)
  | .ok events => .ok (json3Collect events)

/-- The `-->` time-range token. -/
def arrowToken : List Char := ['-', '-', '>']

/-- Length of the maximal leading run of RE2 whitespace. -/
def re2SpaceRun : List Char → Nat
  | [] => 0
  | c :: cs => if isRE2Space c then re2SpaceRun cs + 1 else 0

/-- Case-insensitive `leadMatch` (ASCII folding; `(?i)` on `WEBVTT`). -/
def leadMatchCI : List Char → List Char → Bool
  | [], _ => true
  | _ :: _, [] => false
  | p :: ps, c :: cs => p.toLower == c.toLower && leadMatchCI ps cs

/-- `regexp.MustCompile("(?i)^WEBVTT[^\n]*\n").ReplaceAllString(content, "")`:
anchored at the start, so at most one match — if the content begins with
case-insensitive `WEBVTT`, the greedy `[^\n]*` runs to the first newline
and the match is the whole first line including its newline; with no
newline anywhere the required `\n` fails and nothing is removed. -/
def removeVTTHeader (s : List Char) : List Char :=
  if leadMatchCI "WEBVTT".data s then
    match indexOfSub ['\n'] s with
    | some j => s.drop (j + 1)
    | none => s
  else s

/-- `regexp.MustCompile("(?m)^NOTE.*$").ReplaceAllString(content, "")`:
with multiline anchors and a dot that stops at newlines, every line that
starts with `NOTE` has its content (not its newline) replaced by the
empty string. -/
def removeNoteLines (s : List Char) : List Char :=
  List.intercalate ['\n']
    ((goSplit "\n" s).map (fun line => if leadMatch "NOTE".data line then [] else line))

/-- The `STYLE` literal of the style-block pattern. -/
def styleLit : List Char := "STYLE".data

/-- Backtracking of `\s*\n` then lazy `.*?\n\n` after a `STYLE`
literal, as a Perl-priority engine runs it: the greedy `\s*` first
consumes `k` whitespace characters for the largest `k` such that the
next character is a newline, then the lazy `.*?` stops at the first
`"\n\n"`; if none follows, `\s*` backs off to the next-smaller such
`k`.  Returns the remainder of the content after the match, if any
candidate completes. -/
def styleTailTry (rest : List Char) : Nat → Option (List Char)
  | 0 =>
    if rest.head? == some '\n' then
      match indexOfSub ['\n', '\n'] (rest.drop 1) with
      | some j => some ((rest.drop 1).drop (j + 2))
      | none => none
    else none
  | k + 1 =>
    if rest.get? (k + 1) == some '\n' then
      match indexOfSub ['\n', '\n'] (rest.drop (k + 2)) with
      | some j => some ((rest.drop (k + 2)).drop (j + 2))
      | none => styleTailTry rest k
    else styleTailTry rest k

/-- Try the style-block pattern tail directly after a `STYLE` literal:
the `\s*` candidates are bounded by the maximal whitespace run. -/
def styleTailMatch (rest : List Char) : Option (List Char) :=
  styleTailTry rest (re2SpaceRun rest)

/-- Worker for `removeStyleBlocks`: scan left to right for `STYLE`
occurrences whose pattern tail completes, deleting each match
(non-overlapping, leftmost).  Fuel as in `removeAllFuel`. -/
def removeStyleBlocksAux : Nat → List Char → List Char
  | 0, s => s
  | _ + 1, [] => []
  | fuel + 1, c :: rest =>
    if leadMatch styleLit (c :: rest) then
      match styleTailMatch (rest.drop 4) with
      | some remainder => removeStyleBlocksAux fuel remainder
      | none => c :: removeStyleBlocksAux fuel rest
    else c :: removeStyleBlocksAux fuel rest

/-- `regexp.MustCompile("(?s)STYLE\s*\n.*?\n\n").ReplaceAllString(content, "")`. -/
def removeStyleBlocks (s : List Char) : List Char :=
  removeStyleBlocksAux (s.length + 1) s

/-- Worker for `stripTags`: `regexp.MustCompile("<[^>]+>")` matches a
`<`, at least one non-`>` character (so the greedy run ends right before
the first later `>`), and that `>`; `"<>"` has an empty interior and
does not match, and a `<` with no later `>` cannot match.  Fuel as in
`removeAllFuel`. -/
def stripTagsAux : Nat → List Char → List Char
  | 0, s => s
  | _ + 1, [] => []
  | fuel + 1, c :: rest =>
    if c == '<' then
      match indexOfSub ['>'] rest with
      | some j =>
        if 0 < j then stripTagsAux fuel (rest.drop (j + 1))
        else '<' :: stripTagsAux fuel rest
      | none => '<' :: stripTagsAux fuel rest
    else c :: stripTagsAux fuel rest

/-- `regexp.MustCompile("<[^>]+>").ReplaceAllString(line, "")`. -/
def stripTags (s : List Char) : List Char :=
  stripTagsAux (s.length + 1) s

/-- The header/NOTE/STYLE preprocessing of `ParseVTT`, in source order. -/
def vttPreprocess (s : List Char) : List Char :=
  removeStyleBlocks (removeNoteLines (removeVTTHeader s))

/-- The text parts contributed by one VTT block: each line that carries
no `-->` and is not blank contributes its tag-stripped, trimmed text. -/
def vttBlockParts (block : List Char) : List (List Char) :=
  (goSplit "\n" (trimSpace block)).filterMap (fun line =>
    if !occursIn arrowToken line && !(trimSpace line).isEmpty then
      some (trimSpace (stripTags line))
    else none)

/-- All text parts of a VTT document, in file order: preprocess, split
on blank lines, collect each block's line parts. -/
def vttTextParts (content : List Char) : List (List Char) :=
  List.flatten ((goSplit "\n\n" (vttPreprocess content)).map vttBlockParts)

/-- `SubtitleParser.ParseVTT`.  The Go function's error result is
always nil (all regular expressions are precompiled), so the embedding
returns the string directly. -/
def parseVTT (data : String) : String :=
  String.mk (trimSpace (gatherSp (vttTextParts data.data)))

/-! ## Caption locator (`pkg/youtube/client.go`) -/

/-- The untyped value universe produced by `json.Unmarshal` into Go's
`interface` type. -/
inductive GoVal where
  | null
  | bool (b : Bool)
  | num (x : Float)
  | str (s : String)
  | arr (elems : List GoVal)
  | obj (fields : List (String × GoVal))

/-- Go map lookup on an object's fields (keys are unique). -/
def lookupGo (fields : List (String × GoVal)) (key : String) : Option GoVal :=
  (fields.find? (fun kv => kv.1 == key)).map (fun kv => kv.2)

/-- One step of `extractSubtitleURL`'s inner loop: an entry matches a
preferred format when it is an object whose `ext` equals the format and
which carries a string `url`; the match yields that url. -/
def entryMatch (preferredFormat : String) (sub : GoVal) : Option String :=
  match sub with
  | .obj subInfo =>
    match lookupGo subInfo "ext" with
    | some (.str ext) =>
      if ext == preferredFormat then
        match lookupGo subInfo "url" with
        | some (.str url) => some url
        | _ => none
      else none
    | _ => none
  | _ => none

/-- The two nested loops of `extractSubtitleURL`: for each format in
preference order, scan the entries in order and return the first
matching url together with its format. -/
def scanPref (pref : List String) (enSubs : List GoVal) : Option (String × String) :=
  pref.findSome? (fun f => (enSubs.findSome? (entryMatch f)).map (fun u => (u, f)))

/-- The declared extension of a fallback entry, or `"unknown"`. -/
def extOrUnknown (subInfo : List (String × GoVal)) : String :=
  match lookupGo subInfo "ext" with
  | some (.str ext) => ext
  | _ => "unknown"

/-- `Client.extractSubtitleURL`: English entries are scanned against the
format preference list; failing that, the first entry is used when it is
an object carrying a string url.  The pair `("", "")` is the source's
not-found sentinel. -/
def extractSubtitleURL (subsData : List (String × GoVal)) (pref : List String) :
    String × String :=
  match lookupGo subsData "en" with
  | some (.arr enSubs) =>
    if 0 < enSubs.length then
      match scanPref pref enSubs with
      | some (url, format) => (url, format)
      | none =>
        match enSubs.head? with
        | some (.obj subInfo) =>
          match lookupGo subInfo "url" with
          | some (.str url) => (url, extOrUnknown subInfo)
          | _ => ("", "")
        | _ => ("", "")
    else ("", "")
  | _ => ("", "")

/-- The fixed preference order `json3 > vtt > srv3 > srv2 > srv1`. -/
def formatPreference : List String := ["json3", "vtt", "srv3", "srv2", "srv1"]

/-- The `subtitles` (manual captions) arm of `findBestSubtitleURL`. -/
def findManualSubtitleURL (videoData : List (String × GoVal)) : String × String :=
  match lookupGo videoData "subtitles" with
  | some (.obj subs) =>
    let r := extractSubtitleURL subs formatPreference
    if r.1 != "" then r else ("", "")
  | _ => ("", "")

/-- `Client.findBestSubtitleURL`: `automatic_captions` first, then
`subtitles`. -/
def findBestSubtitleURL (videoData : List (String × GoVal)) : String × String :=
  match lookupGo videoData "automatic_captions" with
  | some (.obj autoCaps) =>
    let r := extractSubtitleURL autoCaps formatPreference
    if r.1 != "" then r else findManualSubtitleURL videoData
  | _ => findManualSubtitleURL videoData

/-! ## Data model (`internal/models`, `pkg/youtube` types) -/

/-- `models.SourceContent` (timestamps abstracted to integers). -/
structure SourceContent where
  id : Int
  type : String
  url : String
  title : String
  transcript : String
  processedAt : Int
  createdAt : Int
deriving DecidableEq

/-- `models.CreateSourceContentRequest`. -/
structure CreateSourceContentRequest where
  type : String
  url : String
  title : String
  transcript : String
deriving DecidableEq

/-- `models.Concept`. -/
structure Concept where
  id : Int
  title : String
  description : String
  sourceContentId : Option Int
  createdAt : Int
  updatedAt : Int
deriving DecidableEq

/-- `models.QuizQuestion`. -/
structure QuizQuestion where
  id : Int
  conceptId : Int
  question : String
  optionA : String
  optionB : String
  optionC : String
  optionD : String
  correctAnswer : String
  explanation : String
  createdAt : Int
deriving DecidableEq

/-- `models.GeneratedContent` (`ConceptIDs` is the `IntArray` id list). -/
structure GeneratedContent where
  id : Int
  platform : String
  title : String
  body : String
  conceptIDs : List Int
  status : String
  publishedAt : Option Int
  createdAt : Int
  updatedAt : Int
deriving DecidableEq

/-- `youtube.Transcript`. -/
structure Transcript where
  text : String
  language : String
deriving DecidableEq

/-- `youtube.Metadata`. -/
structure Metadata where
  title : String
  duration : Int
  channel : String
deriving DecidableEq

/-- `youtube.VideoInfo` (`Transcript` is a nilable pointer in Go). -/
structure VideoInfo where
  transcript : Option Transcript
  metadata : Metadata
deriving DecidableEq

/-- `services.ProcessResult`. -/
structure ProcessResult where
  sourceContent : SourceContent
  concepts : List Concept
  quizzes : List QuizQuestion
  generatedContent : List GeneratedContent
deriving DecidableEq

deriving instance DecidableEq for Except

/-- `exceptIsErr e` is true exactly on `Except.error`. -/
def exceptIsErr {ε α : Type} : Except ε α → Bool
  | .error _ => true
  | .ok _ => false

/-- The `Except.ok` payload, if any. -/
def exceptToOption {ε α : Type} : Except ε α → Option α
  | .error _ => none
  | .ok a => some a

/-! ## Derivation client response handling (`pkg/claude`, `GenerateQuiz`) -/

/-- The `"```json"` fence marker. -/
def ticksJson : List Char := "```json".data

/-- The `"```"` fence marker. -/
def ticks : List Char := "```".data

/-- The fence-stripping phase of `claude.ParseJSONResponse`: if the reply
carries a ```` ```json ```` block the parser operates on its contents; a
generic ```` ``` ```` block is used after skipping a language-tag line;
otherwise the raw reply is parsed. -/
def extractJSONText (responseText : String) : String :=
  let text := responseText.data
  if occursIn ticksJson text then
    match indexOfSub ticksJson text with
    | some start0 =>
      let start := start0 + 7
      match indexOfSub ticks (text.drop start) with
      | some endIdx => String.mk ((text.drop start).take endIdx)
      | none => responseText
    | none => responseText
  else if occursIn ticks text then
    match indexOfSub ticks text with
    | some start0 =>
      let start1 := start0 + 3
      let start :=
        match indexOfSub ['\n'] (text.drop start1) with
        | some newlineIdx => start1 + newlineIdx + 1
        | none => start1
      match indexOfSub ticks (text.drop start) with
      | some endIdx => String.mk ((text.drop start).take endIdx)
      | none => responseText
    | none => responseText
  else responseText

/-- `claude.ParseJSONResponse`: fence stripping followed by
`json.Unmarshal` (standard library, injected as an oracle). -/
def parseJSONResponse {α : Type} (unmarshal : String → Except String α)
    (responseText : String) : Except String α :=
  match unmarshal (extractJSONText responseText) with
  | .error e => .error ("failed to parse JSON response: " ++ e)
  | .ok v => .ok v

/-- Go `strings.ToUpper` (the values below are ASCII). -/
def goToUpper (s : String) : String :=
  String.mk (s.data.map Char.toUpper)

/-- The parsed shape of one quiz entry in the Claude reply. -/
structure QuizData where
  question : String
  optionA : String
  optionB : String
  optionC : String
  optionD : String
  correctAnswer : String
  explanation : String
deriving DecidableEq

/-- The system prompt of `ClaudeService.GenerateQuiz`. -/
def quizSystemPrompt : String :=
  "You are an expert educator creating effective quiz questions that test understanding and application, not just recall."

/-- The user prompt of `ClaudeService.GenerateQuiz` (braces of the JSON
sample escaped). -/
def quizUserPrompt (concept : Concept) : String :=
  "Generate 2-3 quiz questions for this concept to test understanding and application.\n\nConcept:\nTitle: "
    ++ concept.title ++ "\nDescription: " ++ concept.description ++
    "\n\nFor each question:\n- Question: Tests understanding or application (avoid simple recall)\n- 4 options (A, B, C, D) - make them plausible\n- Correct answer (A, B, C, or D)\n- Explanation: Why correct answer is right and others are wrong (2-3 sentences)\n\nReturn ONLY a JSON array, no markdown formatting, no code blocks:\n[\n  \x7b\n    \"question\": \"...\",\n    \"option_a\": \"...\",\n    \"option_b\": \"...\",\n    \"option_c\": \"...\",\n    \"option_d\": \"...\",\n    \"correct_answer\": \"B\",\n    \"explanation\": \"...\"\n  \x7d\n]"

/-- The per-entry conversion inside `GenerateQuiz`: each parsed reply
entry becomes a `models.QuizQuestion` whose `CorrectAnswer` is the
uppercased reply field (`ID`/`CreatedAt` keep Go zero values). -/
def quizQuestionOfData (concept : Concept) (q : QuizData) : QuizQuestion :=
  { id := 0
    conceptId := concept.id
    question := q.question
    optionA := q.optionA
    optionB := q.optionB
    optionC := q.optionC
    optionD := q.optionD
    correctAnswer := goToUpper q.correctAnswer
    explanation := q.explanation
    createdAt := 0 }

/-- `ClaudeService.GenerateQuiz`: send the prompts through the client
boundary, parse the reply, and map each entry through
`quizQuestionOfData`. -/
def generateQuiz (send : String → String → Except String String)
    (unmarshal : String → Except String (List QuizData)) (concept : Concept) :
    Except String (List QuizQuestion) :=
  match send quizSystemPrompt (quizUserPrompt concept) with
  | .error e => .error ("failed to generate quiz: " ++ e)
  | .ok responseText =>
    match parseJSONResponse unmarshal responseText with
    | .error e => .error ("failed to parse quiz JSON: " ++ e)
    | .ok quizData =>
      .ok (quizData.map (quizQuestionOfData concept))

/-! ## Repositories (`internal/db`) -/

/-- `db.GetGeneratedContentByConceptIDs`'s in-memory filter over the
scanned rows (in query order).  The Go inner loop over `gc.ConceptIDs`
with its `break` is an any-membership test; the `break` leaves only the
inner loop, so the outer loop over the query ids appends `gc` once per
query id that appears in `gc.ConceptIDs`. -/
def getGeneratedContentByConceptIDs (rows : List GeneratedContent)
    (conceptIDs : List Int) : List GeneratedContent :=
  rows.foldl
    (fun contents gc =>
      conceptIDs.foldl
        (fun acc targetID => if gc.conceptIDs.contains targetID then acc ++ [gc] else acc)
        contents)
    []

/-- The transaction boundary used by `db.CreateQuizBatch`: `DB.Begin`,
one `tx.QueryRow` insert per question, `tx.Commit`. -/
structure QuizTxEnv where
  beginTx : Except String Unit
  insertQuiz : QuizQuestion → Except String QuizQuestion
  commitTx : Except String Unit

/-- The transaction boundary used by `db.CreateGeneratedContentBatch`. -/
structure ContentTxEnv where
  beginTx : Except String Unit
  insertContent : GeneratedContent → Except String GeneratedContent
  commitTx : Except String Unit

/-- Counts of store operations issued by a batch call. -/
structure DbLog where
  begins : Nat
  inserts : Nat
  commits : Nat
deriving DecidableEq

/-- The insert loop of `db.CreateQuizBatch`, with its insert count; the
loop stops at the first failing insert. -/
def insertQuizzes (env : QuizTxEnv) : List QuizQuestion → Except String (List QuizQuestion) × Nat
  | [] => (.ok [], 0)
  | q :: rest =>
    match env.insertQuiz q with
    | .error e => (.error ("failed to create quiz question: " ++ e), 1)
    | .ok created =>
      match insertQuizzes env rest with
      | (.ok createds, n) => (.ok (created :: createds), n + 1)
      | (.error e, n) => (.error e, n + 1)

/-- `db.CreateQuizBatch`: an empty input returns the empty collection
immediately; otherwise begin, insert each row, commit. -/
def createQuizBatch (env : QuizTxEnv) (questions : List QuizQuestion) :
    Except String (List QuizQuestion) × DbLog :=
  if questions.length = 0 then (.ok [], ⟨0, 0, 0⟩)
  else
    match env.beginTx with
    | .error e => (.error ("failed to begin transaction: " ++ e), ⟨1, 0, 0⟩)
    | .ok _ =>
      match insertQuizzes env questions with
      | (.error e, n) => (.error e, ⟨1, n, 0⟩)
      | (.ok createds, n) =>
        match env.commitTx with
        | .error e => (.error ("failed to commit transaction: " ++ e), ⟨1, n, 1⟩)
        | .ok _ => (.ok createds, ⟨1, n, 1⟩)

/-- The insert loop of `db.CreateGeneratedContentBatch`. -/
def insertContents (env : ContentTxEnv) :
    List GeneratedContent → Except String (List GeneratedContent) × Nat
  | [] => (.ok [], 0)
  | c :: rest =>
    match env.insertContent c with
    | .error e => (.error ("failed to create generated content: " ++ e), 1)
    | .ok created =>
      match insertContents env rest with
      | (.ok createds, n) => (.ok (created :: createds), n + 1)
      | (.error e, n) => (.error e, n + 1)

/-- `db.CreateGeneratedContentBatch`: an empty input returns the empty
collection immediately; otherwise begin, insert each row, commit. -/
def createGeneratedContentBatch (env : ContentTxEnv) (contents : List GeneratedContent) :
    Except String (List GeneratedContent) × DbLog :=
  if contents.length = 0 then (.ok [], ⟨0, 0, 0⟩)
  else
    match env.beginTx with
    | .error e => (.error ("failed to begin transaction: " ++ e), ⟨1, 0, 0⟩)
    | .ok _ =>
      match insertContents env contents with
      | (.error e, n) => (.error e, ⟨1, n, 0⟩)
      | (.ok createds, n) =>
        match env.commitTx with
        | .error e => (.error ("failed to commit transaction: " ++ e), ⟨1, n, 1⟩)
        | .ok _ => (.ok createds, ⟨1, n, 1⟩)

/-! ## Pipeline orchestrator (`SourceContentService.ProcessYouTubeURL`) -/

/-- The collaborator surface of the orchestrator: the database
repositories, the yt-dlp client (`GetVideoInfo`) and the Claude service
methods, each as a fallible function. -/
structure PipelineEnv where
  getSourceContentByURL : String → Except String (Option SourceContent)
  getVideoInfo : String → Except String VideoInfo
  createSourceContent : CreateSourceContentRequest → Except String SourceContent
  extractConcepts : String → Int → Except String (List Concept)
  createConceptsBatch : List Concept → Except String (List Concept)
  generateQuiz : Concept → Except String (List QuizQuestion)
  createQuizBatch : List QuizQuestion → Except String (List QuizQuestion)
  generateContent : String → List Concept → Except String GeneratedContent
  createGeneratedContentBatch : List GeneratedContent → Except String (List GeneratedContent)
  getConceptsBySourceContentID : Int → Except String (List Concept)
  getQuizzesBySourceContentID : Int → Except String (List QuizQuestion)
  getGeneratedContentByConceptIDs : List Int → Except String (List GeneratedContent)

/-- External calls issued by one `ProcessYouTubeURL` run: transcript
acquisitions (`GetVideoInfo`), the three derivation-service stages, and
the argument of each content-persistence batch call. -/
structure CallLog where
  getVideoInfoCalls : Nat
  extractConceptsCalls : Nat
  generateQuizCalls : Nat
  generateContentCalls : Nat
  contentBatchArgs : List (List GeneratedContent)
deriving DecidableEq

/-- `SourceContentService.getExistingProcessResult`: re-assemble a result
from persisted data; every lookup failure degrades to an empty
collection, and the content lookup runs only when concepts exist.  The
Go error result is always nil. -/
def getExistingProcessResult (env : PipelineEnv) (sourceContent : SourceContent) :
    ProcessResult :=
  let concepts :=
    match env.getConceptsBySourceContentID sourceContent.id with
    | .ok cs => cs
    | .error _ => []
  let quizzes :=
    match env.getQuizzesBySourceContentID sourceContent.id with
    | .ok qs => qs
    | .error _ => []
  let generatedContent :=
    if 0 < concepts.length then
      match env.getGeneratedContentByConceptIDs (concepts.map (fun c => c.id)) with
      | .ok gs => gs
      | .error _ => []
    else []
  ⟨sourceContent, concepts, quizzes, generatedContent⟩

/-- Step 5's generation loop: one `GenerateQuiz` call per saved concept;
a failing concept is skipped. -/
def quizGenerationLoop (env : PipelineEnv) (savedConcepts : List Concept) :
    List QuizQuestion :=
  savedConcepts.foldl
    (fun allQuizzes concept =>
      match env.generateQuiz concept with
      | .ok quizzes => allQuizzes ++ quizzes
      | .error _ => allQuizzes)
    []

/-- Step 5: generate quizzes, then persist them as one batch when any
were generated; a failing batch drops all quizzes. -/
def quizStage (env : PipelineEnv) (savedConcepts : List Concept) : List QuizQuestion :=
  let allQuizzes := quizGenerationLoop env savedConcepts
  if 0 < allQuizzes.length then
    match env.createQuizBatch allQuizzes with
    | .ok savedQuizzes => savedQuizzes
    | .error _ => []
  else allQuizzes

/-- The fixed platform set of step 6. -/
def platforms : List String := ["linkedin", "twitter", "blog"]

/-- Step 6's generation loop: one `GenerateContent` call per platform; a
failing platform is skipped. -/
def contentGenerationLoop (env : PipelineEnv) (savedConcepts : List Concept) :
    List GeneratedContent :=
  platforms.foldl
    (fun acc platform =>
      match env.generateContent platform savedConcepts with
      | .ok content => acc ++ [content]
      | .error _ => acc)
    []

/-- Step 6: generate content per platform, then persist as one batch
when any was generated (the second component records each batch call's
argument); a failing batch drops all generated content. -/
def contentStage (env : PipelineEnv) (savedConcepts : List Concept) :
    List GeneratedContent × List (List GeneratedContent) :=
  let generatedContents := contentGenerationLoop env savedConcepts
  if 0 < generatedContents.length then
    match env.createGeneratedContentBatch generatedContents with
    | .ok savedContent => (savedContent, [generatedContents])
    | .error _ => ([], [generatedContents])
  else (generatedContents, [])

/-- `SourceContentService.ProcessYouTubeURL`, with the run's call log.
Control flow is transcribed branch by branch: duplicate check, fetch,
transcript presence, source persistence, concept extraction and
persistence (both degrade to a source-only success), quiz stage, content
stage. -/
def processYouTubeURL (env : PipelineEnv) (url : String) :
    Except String ProcessResult × CallLog :=
  match env.getSourceContentByURL url with
  | .error e => (.error ("failed to check for duplicates: " ++ e), ⟨0, 0, 0, 0, []⟩)
  | .ok (some existing) => (.ok (getExistingProcessResult env existing), ⟨0, 0, 0, 0, []⟩)
  | .ok none =>
    match env.getVideoInfo url with
    | .error e => (.error ("failed to fetch YouTube video: " ++ e), ⟨1, 0, 0, 0, []⟩)
    | .ok videoInfo =>
      match videoInfo.transcript with
      | none => (.error "no transcript available for this video", ⟨1, 0, 0, 0, []⟩)
      | some transcript =>
        match env.createSourceContent
            ⟨"youtube", url, videoInfo.metadata.title, transcript.text⟩ with
        | .error e => (.error ("failed to save source content: " ++ e), ⟨1, 0, 0, 0, []⟩)
        | .ok sourceContent =>
          match env.extractConcepts transcript.text sourceContent.id with
          | .error _ => (.ok ⟨sourceContent, [], [], []⟩, ⟨1, 1, 0, 0, []⟩)
          | .ok concepts =>
            match env.createConceptsBatch concepts with
            | .error _ => (.ok ⟨sourceContent, [], [], []⟩, ⟨1, 1, 0, 0, []⟩)
            | .ok savedConcepts =>
              let allQuizzes := quizStage env savedConcepts
              let content := contentStage env savedConcepts
              (.ok ⟨sourceContent, savedConcepts, allQuizzes, content.1⟩,
               ⟨1, 1, savedConcepts.length, platforms.length, content.2⟩)


/-! ## Concrete fixtures used by witnesses and counterexamples -/

/-- A persisted source record. -/
def scW : SourceContent := ⟨7, "youtube", "https://www.youtube.com/watch?v=abc", "T", "hello world", 0, 0⟩

/-- A saved concept of `scW`. -/
def cW : Concept := ⟨3, "Concept title", "Concept description", some 7, 0, 0⟩

/-- A quiz question of `cW`. -/
def qW : QuizQuestion := ⟨1, 3, "q", "1", "2", "3", "4", "A", "because", 0⟩

/-- A generated-content row associated with `cW`. -/
def gW : GeneratedContent := ⟨5, "linkedin", "t", "b", [3], "draft", none, 0, 0⟩

/-- A transcript as returned by the yt-dlp client. -/
def trW : Transcript := ⟨"hello world", "en"⟩

/-- Video metadata as returned by the yt-dlp client. -/
def mdW : Metadata := ⟨"T", 10, "Ch"⟩

/-- A video-info value carrying `trW` and `mdW`. -/
def viW : VideoInfo := ⟨some trW, mdW⟩

/-- A pipeline environment in which every collaborator fails; the
specific environments below override the calls they expect. -/
def envBase : PipelineEnv :=
  { getSourceContentByURL := fun _ => .error "unused"
    getVideoInfo := fun _ => .error "unused"
    createSourceContent := fun _ => .error "unused"
    extractConcepts := fun _ _ => .error "unused"
    createConceptsBatch := fun _ => .error "unused"
    generateQuiz := fun _ => .error "unused"
    createQuizBatch := fun _ => .error "unused"
    generateContent := fun _ _ => .error "unused"
    createGeneratedContentBatch := fun _ => .error "unused"
    getConceptsBySourceContentID := fun _ => .error "unused"
    getQuizzesBySourceContentID := fun _ => .error "unused"
    getGeneratedContentByConceptIDs := fun _ => .error "unused" }

/-- Environment for the duplicate-hit path: the url lookup finds `scW`
and the persisted collections are available; every generation or
acquisition collaborator fails if it is ever reached. -/
def envC1 : PipelineEnv :=
  { envBase with
    getSourceContentByURL := fun _ => .ok (some scW)
    getConceptsBySourceContentID := fun _ => .ok [cW]
    getQuizzesBySourceContentID := fun _ => .ok [qW]
    getGeneratedContentByConceptIDs := fun _ => .ok [gW] }

/-- Environment in which acquisition and source persistence succeed but
concept extraction returns the empty-response error. -/
def envC2 : PipelineEnv :=
  { envBase with
    getSourceContentByURL := fun _ => .ok none
    getVideoInfo := fun _ => .ok viW
    createSourceContent := fun _ => .ok scW
    extractConcepts := fun _ _ => .error "Claude returned empty response" }

/-- Generated content produced for one platform. -/
def gFor (platform : String) : GeneratedContent :=
  ⟨0, platform, "t", "b", [3], "draft", none, 0, 0⟩

/-- Environment in which the whole pipeline succeeds except that content
generation fails for exactly the `twitter` platform. -/
def envC3 : PipelineEnv :=
  { envBase with
    getSourceContentByURL := fun _ => .ok none
    getVideoInfo := fun _ => .ok viW
    createSourceContent := fun _ => .ok scW
    extractConcepts := fun _ _ => .ok [cW]
    createConceptsBatch := fun cs => .ok cs
    generateQuiz := fun _ => .ok [qW]
    createQuizBatch := fun qs => .ok qs
    generateContent := fun platform _ =>
      if platform == "twitter" then .error "boom" else .ok (gFor platform)
    createGeneratedContentBatch := fun l => .ok l }

/-- A Claude reply whose `correct_answer` is `"e"`. -/
def quizReplyE : String := "[\x7b\"correct_answer\":\"e\"\x7d]"

/-- `json.Unmarshal` on `quizReplyE` (per the standard library's
documented behavior: absent fields keep their zero value). -/
def unmarshalE : String → Except String (List QuizData) :=
  fun t => if t == quizReplyE then .ok [⟨"", "", "", "", "", "e", ""⟩] else .error "invalid JSON"

/-- A client boundary replying with `quizReplyE`. -/
def sendE : String → String → Except String String := fun _ _ => .ok quizReplyE

/-- A well-formed parsed quiz entry whose `correct_answer` is `"b"`. -/
def quizDataW : QuizData := ⟨"q", "1", "2", "3", "4", "b", "why"⟩

/-- An unmarshal oracle always producing `quizDataW`. -/
def unmarshalW : String → Except String (List QuizData) := fun _ => .ok [quizDataW]

/-- A client boundary with an arbitrary reply (paired with `unmarshalW`). -/
def sendW : String → String → Except String String := fun _ _ => .ok "irrelevant"

/-- A stored content row whose id list meets a two-id query twice. -/
def gcDup : GeneratedContent := ⟨1, "linkedin", "t", "b", [1, 2], "draft", none, 0, 0⟩

/-- The spec's locator scenario: automatic captions with a `json3` and a
`vtt` English entry. -/
def mdExample : List (String × GoVal) :=
  [("automatic_captions", GoVal.obj
    [("en", GoVal.arr
      [GoVal.obj [("ext", GoVal.str "json3"), ("url", GoVal.str "U1")],
       GoVal.obj [("ext", GoVal.str "vtt"), ("url", GoVal.str "U2")]])])]

/-- One English entry with an unpreferred extension and no url. -/
def enNoURL : List GoVal := [GoVal.obj [("ext", GoVal.str "foo")]]

/-- Subtitle data whose only English entry carries a url but no
extension. -/
def enFallbackW : List (String × GoVal) :=
  [("en", GoVal.arr [GoVal.obj [("url", GoVal.str "U9")]])]

/-- An SRT block whose subtitle text itself carries a time-range token
and markup tags. -/
def srtCounterInput : String := "1\n00:00:00,000 --> 00:00:02,000\n<i>hi --> bye</i>\n"

/-- The spec's SRT scenario. -/
def srtExampleInput : String :=
  "1\n00:00:00,000 --> 00:00:02,000\nHi there\n\n2\n00:00:02,000 --> 00:00:04,000\nBye now\n"

/-- A JSON3 document whose single segment text carries a `-->` token. -/
def json3ReplyArrow : String :=
  "\x7b\"events\":[\x7b\"segs\":[\x7b\"utf8\":\"a --> b\"\x7d]\x7d]\x7d"

/-- `json.Unmarshal` on `json3ReplyArrow` (per the standard library's
documented behavior: one event with one segment whose `utf8` is
`"a --> b"`). -/
def unmarshalJson3Arrow : String → Except String (List (List String)) :=
  fun t => if t == json3ReplyArrow then .ok [["a --> b"]] else .error "invalid JSON"

/-- A VTT cue whose text line `-<c>->` carries no `-->`, but whose tag
stripping deletes `<c>` and splices one together. -/
def vttCounterInput : String := "WEBVTT\n\n00:00:00.000 --> 00:00:02.000\n-<c>->\n"

/-- A well-formed two-cue VTT document. -/
def vttExampleInput : String :=
  "WEBVTT\n\n00:00:00.000 --> 00:00:02.000\nFirst subtitle text\n\n00:00:02.000 --> 00:00:04.000\nSecond subtitle text\n"

/-- A VTT document with a NOTE line, a STYLE block and cue tags. -/
def vttNoteStyleInput : String :=
  "WEBVTT\n\nNOTE this is a note\n\nSTYLE\n::cue \x7b color: red \x7d\n\n00:00:00.000 --> 00:00:02.000\nHello <c>world</c>\n"


/-! ## Theorems -/

/-- C6: evaluation of `CleanTranscript` at `"a [Music] b"`.  Whitespace
is collapsed before the noise tokens are deleted, so deleting
`"[Music]"` leaves the two spaces around it; a second application
collapses them, hence `clean` is not idempotent. -/
theorem cleanTranscript_not_idempotent :
    cleanTranscript "a [Music] b" = "a  b" ∧
    cleanTranscript (cleanTranscript "a [Music] b") ≠ cleanTranscript "a [Music] b" := by
  decide

/-- C7: evaluation of `CleanTranscript` at `"x [Applause] y"`.  The
output contains a run of two consecutive spaces, violating the
doubled-whitespace invariant. -/
theorem cleanTranscript_retains_double_space :
    cleanTranscript "x [Applause] y" = "x  y" ∧
    occursIn [' ', ' '] (cleanTranscript "x [Applause] y").data = true := by
  decide

/-- C4: a stored row whose `ConceptIDs` is `[1, 2]` is returned twice by
`GetGeneratedContentByConceptIDs` for the query `[1, 2]` — the inner
`break` leaves only the inner loop, so the row is appended once per
matching query id instead of exactly once. -/
theorem getGeneratedContentByConceptIDs_duplicates :
    getGeneratedContentByConceptIDs [gcDup] [1, 2] = [gcDup, gcDup] := by
  decide

/-- C10: `CreateQuizBatch` and `CreateGeneratedContentBatch` on an empty
input return the empty collection with a nil error, without beginning a
transaction or issuing any insert or commit, for every transaction
environment. -/
theorem createBatch_empty_fast_path (qenv : QuizTxEnv) (cenv : ContentTxEnv) :
    createQuizBatch qenv [] = (.ok [], ⟨0, 0, 0⟩) ∧
    createGeneratedContentBatch cenv [] = (.ok [], ⟨0, 0, 0⟩) :=
  ⟨rfl, rfl⟩

/-- C5 counterexample: one English entry exists and no entry matches a
preferred format, yet the locator returns the not-found sentinel instead
of falling back to the first entry, because that entry carries no url
string. -/
theorem extractSubtitleURL_fallback_counterexample :
    enNoURL.length = 1 ∧
    scanPref formatPreference enNoURL = none ∧
    extractSubtitleURL [("en", GoVal.arr enNoURL)] formatPreference = ("", "") :=
  ⟨rfl, rfl, rfl⟩

/-- C8 counterexample: each of the three decoders can return a `-->`
token or bracketed markup.  `ParseSRT` succeeds (its error is always
nil) on a block whose text line carries both and returns them verbatim;
`ParseJSON3` succeeds on a document whose segment text carries `-->` and
returns it verbatim; `ParseVTT` even manufactures a `-->`: the cue line
`-<c>->` contains none, passes the time-range filter, and stripping the
`<c>` tag splices one together. -/
theorem decoders_retain_markup :
    parseSRT srtCounterInput = "<i>hi --> bye</i>" ∧
    occursIn arrowToken (parseSRT srtCounterInput).data = true ∧
    occursIn ['<'] (parseSRT srtCounterInput).data = true ∧
    parseJSON3 unmarshalJson3Arrow json3ReplyArrow = .ok "a --> b" ∧
    occursIn arrowToken "a --> b".data = true ∧
    parseVTT vttCounterInput = "-->" := by
  decide

/-- Sanity: the VTT embedding on a well-formed two-cue document. -/
theorem parseVTT_spec_scenario :
    parseVTT vttExampleInput = "First subtitle text Second subtitle text" := by
  decide

/-- Sanity: the VTT embedding removes the header, NOTE lines, STYLE
blocks and cue tags. -/
theorem parseVTT_strips_note_style_and_tags :
    parseVTT vttNoteStyleInput = "Hello world" := by
  decide

/-- C9 counterexample: a reply whose `correct_answer` is `"e"` is parsed
and merely uppercased, so `GenerateQuiz` produces a question whose
`CorrectAnswer` is `"E"`, outside `{A, B, C, D}`. -/
theorem generateQuiz_answer_not_validated :
    generateQuiz sendE unmarshalE cW = .ok [⟨0, 3, "", "", "", "", "", "E", "", 0⟩] ∧
    "E" ∉ (["A", "B", "C", "D"] : List String) := by
  decide


/-- `leadMatch` characterization: a successful lead match is exactly a
prefix decomposition. -/
theorem leadMatch_iff (pat : List Char) :
    ∀ s, leadMatch pat s = true ↔ ∃ t, s = pat ++ t := by
  induction pat with
  | nil => intro s; simp [leadMatch]
  | cons p ps ih =>
    intro s
    cases s with
    | nil => simp [leadMatch]
    | cons c cs =>
      simp only [leadMatch, Bool.and_eq_true, beq_iff_eq, ih cs, List.cons_append,
        List.cons.injEq]
      constructor
      · rintro ⟨hpc, t, rfl⟩; exact ⟨t, hpc.symm, rfl⟩
      · rintro ⟨t, hcp, hct⟩; exact ⟨hcp.symm, t, hct⟩

/-- `occursIn` characterization: an occurrence is exactly an infix
decomposition. -/
theorem occursIn_iff (pat : List Char) :
    ∀ s, occursIn pat s = true ↔ ∃ a b, s = a ++ pat ++ b := by
  intro s
  induction s with
  | nil =>
    simp only [occursIn, leadMatch_iff]
    constructor
    · rintro ⟨t, ht⟩; exact ⟨[], t, ht⟩
    · rintro ⟨a, b, h⟩
      rcases (by simpa using h.symm : a = [] ∧ pat = [] ∧ b = []) with ⟨_, hpat, _⟩
      exact ⟨[], by simp [hpat]⟩
  | cons c cs ih =>
    simp only [occursIn, Bool.or_eq_true, leadMatch_iff, ih]
    constructor
    · rintro (⟨t, ht⟩ | ⟨a, b, hab⟩)
      · exact ⟨[], t, by simpa using ht⟩
      · exact ⟨c :: a, b, by simp [hab]⟩
    · rintro ⟨a, b, h⟩
      cases a with
      | nil => exact Or.inl ⟨b, by simpa using h⟩
      | cons a0 as =>
        rcases (by simpa using h : c = a0 ∧ cs = as ++ (pat ++ b)) with ⟨_, h2⟩
        exact Or.inr ⟨as, b, by simpa using h2⟩

/-- An occurrence inside an infix is an occurrence in the whole list. -/
theorem occursIn_of_inside (pat m l : List Char) (h : occursIn pat m = true)
    (hinf : ∃ x y, l = x ++ m ++ y) : occursIn pat l = true := by
  rcases (occursIn_iff pat m).1 h with ⟨a, b, hab⟩
  rcases hinf with ⟨x, y, hxy⟩
  exact (occursIn_iff pat l).2 ⟨x ++ a, b ++ y, by simp [hxy, hab]⟩

/-- `dropWhile` removes an initial segment. -/
theorem dropWhile_eq_append (p : Char → Bool) (l : List Char) :
    ∃ x, l = x ++ l.dropWhile p := by
  induction l with
  | nil => exact ⟨[], rfl⟩
  | cons c cs ih =>
    by_cases h : p c
    · rcases ih with ⟨x, hx⟩
      refine ⟨c :: x, ?_⟩
      simpa [List.dropWhile_cons, h] using hx
    · exact ⟨[], by simp [List.dropWhile_cons, h]⟩

/-- `trimSpace` only removes characters at the two ends. -/
theorem trimSpace_inside (l : List Char) : ∃ x y, l = x ++ trimSpace l ++ y := by
  rcases dropWhile_eq_append isUnicodeSpace l with ⟨x, hx⟩
  rcases dropWhile_eq_append isUnicodeSpace (l.dropWhile isUnicodeSpace).reverse with ⟨w, hw⟩
  have hm : l.dropWhile isUnicodeSpace = trimSpace l ++ w.reverse := by
    conv_lhs => rw [← List.reverse_reverse (l.dropWhile isUnicodeSpace), hw]
    simp [trimSpace]
  refine ⟨x, w.reverse, ?_⟩
  conv_lhs => rw [hx, hm]
  exact (List.append_assoc x (trimSpace l) w.reverse).symm

/-- An occurrence in the trimmed list is an occurrence in the list. -/
theorem occursIn_of_trim (pat l : List Char) (h : occursIn pat (trimSpace l) = true) :
    occursIn pat l = true :=
  occursIn_of_inside pat (trimSpace l) l h (trimSpace_inside l)

/-- Occurrence decomposition over an append: the pattern occurs in the
left part, in the right part, or spans the boundary. -/
theorem occursIn_append_cases (pat : List Char) :
    ∀ a b, occursIn pat (a ++ b) = true →
      occursIn pat a = true ∨ occursIn pat b = true ∨
        ∃ q r, pat = q ++ r ∧ q ≠ [] ∧ r ≠ [] ∧ (∃ a0, a = a0 ++ q) ∧ ∃ b0, b = r ++ b0 := by
  intro a
  induction a with
  | nil => intro b h; exact Or.inr (Or.inl (by simpa using h))
  | cons c as ih =>
    intro b h
    have h' : leadMatch pat (c :: (as ++ b)) = true ∨ occursIn pat (as ++ b) = true := by
      simpa [occursIn] using h
    rcases h' with hlead | hrest
    · rcases (leadMatch_iff pat _).1 hlead with ⟨t, ht⟩
      cases pat with
      | nil => exact Or.inl (by simp [occursIn, leadMatch])
      | cons p ps =>
        rcases (by simpa using ht : c = p ∧ as ++ b = ps ++ t) with ⟨hcp, hab⟩
        rcases List.append_eq_append_iff.1 hab with ⟨w, hw1, hw2⟩ | ⟨w, hw1, hw2⟩
        · cases w with
          | nil =>
            refine Or.inl ((occursIn_iff _ _).2 ⟨[], [], ?_⟩)
            simp only [List.append_nil] at hw1
            simp [hcp, hw1]
          | cons w0 ws =>
            refine Or.inr (Or.inr ⟨c :: as, w0 :: ws, ?_, by simp, by simp, ⟨[], by simp⟩,
              ⟨t, hw2⟩⟩)
            simp [hcp, hw1]
        · refine Or.inl ((occursIn_iff _ _).2 ⟨[], w, ?_⟩)
          simp [hcp, hw1]
    · rcases ih b hrest with h1 | h2 | ⟨q, r, hqr, hq, hr, ⟨a0, ha0⟩, hb0⟩
      · exact Or.inl (by simp [occursIn, h1])
      · exact Or.inr (Or.inl h2)
      · exact Or.inr (Or.inr ⟨q, r, hqr, hq, hr, ⟨c :: a0, by simp [ha0]⟩, hb0⟩)

/-- A space-free, non-empty pattern that occurs in no collected part
does not occur in the space-joined accumulation of the parts. -/
theorem gather_no_occ (pat : List Char) (hne : pat ≠ []) (hsp : ' ' ∉ pat) :
    ∀ parts : List (List Char), (∀ p ∈ parts, occursIn pat p = false) →
      occursIn pat (gatherSp parts) = false := by
  intro parts
  induction parts with
  | nil =>
    intro _
    cases pat with
    | nil => exact absurd rfl hne
    | cons p ps => simp [gatherSp, occursIn, leadMatch]
  | cons q qs ih =>
    intro hp
    have hq := hp q (List.mem_cons_self q qs)
    have ihq := ih fun p hmem => hp p (List.mem_cons_of_mem q hmem)
    rw [Bool.eq_false_iff]
    intro htrue
    have hsplit : gatherSp (q :: qs) = q ++ ([' '] ++ gatherSp qs) := by simp [gatherSp]
    rw [hsplit] at htrue
    rcases occursIn_append_cases pat q ([' '] ++ gatherSp qs) htrue with h1 | h2 | h3
    · rw [hq] at h1; exact Bool.false_ne_true h1
    · rcases occursIn_append_cases pat [' '] (gatherSp qs) h2 with g1 | g2 | g3
      · rcases (occursIn_iff pat _).1 g1 with ⟨a, b, hab⟩
        cases a with
        | nil =>
          cases pat with
          | nil => exact hne rfl
          | cons p0 ps =>
            rcases (by simpa using hab : ' ' = p0 ∧ [] = ps ++ b) with ⟨hp0, _⟩
            exact hsp (by simp [← hp0])
        | cons a0 as =>
          rcases (by simpa using hab : ' ' = a0 ∧ as = [] ∧ pat = [] ∧ b = []) with
            ⟨_, _, hpat, _⟩
          exact hne hpat
      · rw [ihq] at g2; exact Bool.false_ne_true g2
      · rcases g3 with ⟨u, v, hpat, hu, _, ⟨a0, ha0⟩, _⟩
        have hu1 : u = [' '] := by
          cases a0 with
          | nil => simpa using ha0.symm
          | cons x xs =>
            rcases (by simpa using ha0 : ' ' = x ∧ [] = xs ++ u) with ⟨_, hx⟩
            rcases List.append_eq_nil.1 hx.symm with ⟨_, hu'⟩
            exact absurd hu' hu
        exact hsp (by rw [hpat, hu1]; simp)
    · rcases h3 with ⟨u, v, hpat, _, hv, _, ⟨b0, hb0⟩⟩
      cases v with
      | nil => exact hv rfl
      | cons v0 vs =>
        rcases (by simpa using hb0 : ' ' = v0 ∧ gatherSp qs = vs ++ b0) with ⟨hv0, _⟩
        exact hsp (by rw [hpat, ← hv0]; simp)

/-- C8 amended: the decoders strip only the structure they recognize
and pass the remaining subtitle text through: `ParseSRT` discards each
block's first two lines, `ParseJSON3` emits the collected segment
strings, and `ParseVTT` drops whole lines containing `-->` and strips
complete single-line bracket tags (which can itself splice a `-->`
together).  For each decoder, whenever no extracted text unit (SRT text
lines; JSON3 segment strings; VTT lines after tag stripping and
trimming) contains `-->` — respectively `<` — the output contains no
`-->` (respectively no `<`, hence no bracketed tag); payload-borne
markup surviving in a text unit is returned unchanged. -/
theorem decoders_conditional_no_markup :
    (∀ s : String, (∀ p ∈ srtTextParts s.data, occursIn arrowToken p = false) →
      occursIn arrowToken (parseSRT s).data = false) ∧
    (∀ s : String, (∀ p ∈ srtTextParts s.data, occursIn ['<'] p = false) →
      occursIn ['<'] (parseSRT s).data = false) ∧
    (∀ events : List (List String),
      (∀ p ∈ json3Parts events, occursIn arrowToken p = false) →
      occursIn arrowToken (json3Collect events).data = false) ∧
    (∀ events : List (List String),
      (∀ p ∈ json3Parts events, occursIn ['<'] p = false) →
      occursIn ['<'] (json3Collect events).data = false) ∧
    (∀ s : String, (∀ p ∈ vttTextParts s.data, occursIn arrowToken p = false) →
      occursIn arrowToken (parseVTT s).data = false) ∧
    (∀ s : String, (∀ p ∈ vttTextParts s.data, occursIn ['<'] p = false) →
      occursIn ['<'] (parseVTT s).data = false) := by
  have key : ∀ (pat : List Char), pat ≠ [] → ' ' ∉ pat →
      ∀ parts : List (List Char), (∀ p ∈ parts, occursIn pat p = false) →
      occursIn pat (trimSpace (gatherSp parts)) = false := by
    intro pat hne hsp parts hp
    rw [Bool.eq_false_iff]
    intro htrue
    have h1 := occursIn_of_trim pat (gatherSp parts) htrue
    have h2 := gather_no_occ pat hne hsp parts hp
    rw [h2] at h1
    exact Bool.false_ne_true h1
  refine ⟨fun s hp => ?_, fun s hp => ?_, fun events hp => ?_, fun events hp => ?_,
    fun s hp => ?_, fun s hp => ?_⟩
  · exact key arrowToken (by decide) (by decide) (srtTextParts s.data) hp
  · exact key ['<'] (by decide) (by decide) (srtTextParts s.data) hp
  · exact key arrowToken (by decide) (by decide) (json3Parts events) hp
  · exact key ['<'] (by decide) (by decide) (json3Parts events) hp
  · exact key arrowToken (by decide) (by decide) (vttTextParts s.data) hp
  · exact key ['<'] (by decide) (by decide) (vttTextParts s.data) hp

/-- C8 witness: the conditional guarantees evaluated on the spec's SRT
scenario, the spec's JSON3 scenario, and a well-formed VTT document. -/
theorem decoders_conditional_no_markup_witness :
    occursIn arrowToken (parseSRT srtExampleInput).data = false ∧
    occursIn ['<'] (parseSRT srtExampleInput).data = false ∧
    occursIn arrowToken (json3Collect [["Hello"], ["world"]]).data = false ∧
    occursIn ['<'] (json3Collect [["Hello"], ["world"]]).data = false ∧
    occursIn arrowToken (parseVTT vttExampleInput).data = false ∧
    occursIn ['<'] (parseVTT vttExampleInput).data = false :=
  ⟨decoders_conditional_no_markup.1 srtExampleInput (by decide),
   decoders_conditional_no_markup.2.1 srtExampleInput (by decide),
   decoders_conditional_no_markup.2.2.1 [["Hello"], ["world"]] (by decide),
   decoders_conditional_no_markup.2.2.2.1 [["Hello"], ["world"]] (by decide),
   decoders_conditional_no_markup.2.2.2.2.1 vttExampleInput (by decide),
   decoders_conditional_no_markup.2.2.2.2.2 vttExampleInput (by decide)⟩

/-- `findSome?` on a cons whose head already yields a value. -/
theorem findSome?_cons_of_some {α β : Type} (f : α → Option β) (a : α) (as : List α)
    (b : β) (h : f a = some b) : List.findSome? f (a :: as) = some b := by
  simp [List.findSome?, h]

/-- C5 amended: the locator scans English entries against the fixed
preference order (the spec's scenario resolves to the `json3` entry, and
a `json3` match wins over every other format); when no entry matches a
preferred format it falls back to the first entry provided that entry is
an object carrying a string url, tagging the encoding with the declared
extension or `"unknown"`; a first entry without a url yields the
not-found sentinel instead. -/
theorem extractSubtitleURL_preference_and_fallback :
    findBestSubtitleURL mdExample = ("U1", "json3") ∧
    (∀ (enSubs : List GoVal) (u : String),
      enSubs.findSome? (entryMatch "json3") = some u →
      scanPref formatPreference enSubs = some (u, "json3")) ∧
    (∀ (subsData : List (String × GoVal)) (enSubs : List GoVal)
       (subInfo : List (String × GoVal)) (u : String),
      lookupGo subsData "en" = some (.arr enSubs) →
      enSubs.head? = some (.obj subInfo) →
      scanPref formatPreference enSubs = none →
      lookupGo subInfo "url" = some (.str u) →
      extractSubtitleURL subsData formatPreference = (u, extOrUnknown subInfo)) := by
  refine ⟨rfl, ?_, ?_⟩
  · intro enSubs u h
    exact findSome?_cons_of_some _ _ _ _ (by simp [h])
  · intro subsData enSubs subInfo u h1 h2 h3 h4
    cases enSubs with
    | nil => simp at h2
    | cons e0 es =>
      have he0 : e0 = .obj subInfo := by simpa using h2
      subst he0
      simp [extractSubtitleURL, h1, h3, h4]

/-- C5 witness: the fallback arm applied to subtitle data whose only
English entry carries a url but no extension. -/
theorem extractSubtitleURL_preference_and_fallback_witness :
    extractSubtitleURL enFallbackW formatPreference = ("U9", "unknown") := by
  have h := extractSubtitleURL_preference_and_fallback.2.2 enFallbackW
    [GoVal.obj [("url", GoVal.str "U9")]] [("url", GoVal.str "U9")] "U9" rfl rfl rfl rfl
  exact h

/-- C9 amended: `GenerateQuiz` sets each question's `CorrectAnswer` to
the uppercasing of the reply's `correct_answer` field without validating
it; the invariant `CorrectAnswer ∈ {A, B, C, D}` therefore holds exactly
when every parsed reply entry's `correct_answer` is one of
a, b, c, d in either case. -/
theorem generateQuiz_correct_answer_uppercased
    (send : String → String → Except String String)
    (unmarshal : String → Except String (List QuizData)) (concept : Concept)
    (qs : List QuizQuestion)
    (hok : generateQuiz send unmarshal concept = .ok qs)
    (hwf : ∀ reply ds, parseJSONResponse unmarshal reply = .ok ds →
        ∀ d ∈ ds, d.correctAnswer ∈ (["a", "b", "c", "d", "A", "B", "C", "D"] : List String)) :
    ∀ q ∈ qs, q.correctAnswer ∈ (["A", "B", "C", "D"] : List String) := by
  unfold generateQuiz at hok
  split at hok
  · exact absurd hok (by simp)
  · rename_i responseText hsend
    split at hok
    · exact absurd hok (by simp)
    · rename_i ds hparse
      have hqs : ds.map (quizQuestionOfData concept) = qs := by simpa using hok
      subst hqs
      intro q hq
      rcases List.mem_map.1 hq with ⟨d, hd, rfl⟩
      have h8 := hwf responseText ds hparse d hd
      simp only [List.mem_cons, List.not_mem_nil, or_false] at h8
      rcases h8 with h | h | h | h | h | h | h | h <;>
        · show goToUpper d.correctAnswer ∈ _
          rw [h]
          decide

/-- C9 witness: the amended guarantee applied to a well-formed reply
whose `correct_answer` is `"b"`. -/
theorem generateQuiz_correct_answer_uppercased_witness :
    (quizQuestionOfData cW quizDataW).correctAnswer ∈ (["A", "B", "C", "D"] : List String) := by
  refine generateQuiz_correct_answer_uppercased sendW unmarshalW cW
    [quizQuestionOfData cW quizDataW] (by decide) ?_ (quizQuestionOfData cW quizDataW)
    (List.mem_singleton_self _)
  intro reply ds h d hd
  have hds : [quizDataW] = ds := by simpa [parseJSONResponse, unmarshalW] using h
  rw [← hds] at hd
  have hd' : d = quizDataW := by simpa using hd
  rw [hd']
  decide

/-- C1: when the url lookup finds an already-persisted `SourceContent`,
`ProcessYouTubeURL` short-circuits: it succeeds with a result
re-assembled from the persisted concepts, quizzes and generated content
of that record (the content lookup running only when concepts exist),
its `SourceContent` is the existing record itself (hence equal id), and
the call log shows no transcript acquisition, no derivation call and no
persistence batch. -/
theorem processYouTubeURL_duplicate_short_circuit
    (env : PipelineEnv) (url : String) (sc : SourceContent)
    (cs : List Concept) (qs : List QuizQuestion) (gs : List GeneratedContent)
    (hdup : env.getSourceContentByURL url = .ok (some sc))
    (hcs : env.getConceptsBySourceContentID sc.id = .ok cs)
    (hqs : env.getQuizzesBySourceContentID sc.id = .ok qs)
    (hgs : env.getGeneratedContentByConceptIDs (cs.map (fun c => c.id)) = .ok gs) :
    processYouTubeURL env url =
      (.ok ⟨sc, cs, qs, if 0 < cs.length then gs else []⟩, ⟨0, 0, 0, 0, []⟩) := by
  simp only [processYouTubeURL, hdup, getExistingProcessResult, hcs, hqs, hgs]

/-- C1 witness: the duplicate path evaluated in a concrete environment
holding one concept, one quiz and one generated-content row. -/
theorem processYouTubeURL_duplicate_short_circuit_witness :
    processYouTubeURL envC1 "u1" = (.ok ⟨scW, [cW], [qW], [gW]⟩, ⟨0, 0, 0, 0, []⟩) := by
  have h := processYouTubeURL_duplicate_short_circuit envC1 "u1" scW [cW] [qW] [gW]
    rfl rfl rfl rfl
  simpa using h

/-- C2: when the duplicate check is empty, acquisition succeeds with a
transcript and source persistence succeeds, but concept extraction or
concept batch persistence fails, `ProcessYouTubeURL` reports success
with the persisted `SourceContent` and empty concepts, quizzes and
generated content. -/
theorem processYouTubeURL_concept_failure_degrades
    (env : PipelineEnv) (url : String) (videoInfo : VideoInfo) (tr : Transcript)
    (sc : SourceContent)
    (hdup : env.getSourceContentByURL url = .ok none)
    (hvi : env.getVideoInfo url = .ok videoInfo)
    (htr : videoInfo.transcript = some tr)
    (hsc : env.createSourceContent ⟨"youtube", url, videoInfo.metadata.title, tr.text⟩ =
      .ok sc)
    (hfail : (∃ e, env.extractConcepts tr.text sc.id = .error e) ∨
        ∃ cs e, env.extractConcepts tr.text sc.id = .ok cs ∧
          env.createConceptsBatch cs = .error e) :
    (processYouTubeURL env url).1 = .ok ⟨sc, [], [], []⟩ := by
  rcases hfail with ⟨e, he⟩ | ⟨cs, e, hcs, hbatch⟩
  · simp [processYouTubeURL, hdup, hvi, htr, hsc, he]
  · simp [processYouTubeURL, hdup, hvi, htr, hsc, hcs, hbatch]

/-- C2 witness: the degradation path evaluated in a concrete environment
whose derivation client returns the empty-response error. -/
theorem processYouTubeURL_concept_failure_degrades_witness :
    (processYouTubeURL envC2 "u2").1 = .ok ⟨scW, [], [], []⟩ :=
  processYouTubeURL_concept_failure_degrades envC2 "u2" viW trW scW rfl rfl rfl rfl
    (Or.inl ⟨"Claude returned empty response", rfl⟩)



/-- C3: on a run reaching the content-generation stage over the fixed
platform set in which exactly one platform's generation call fails, the
failing platform is skipped and the generated collection is exactly the
two successes in platform order; the persistence batch is attempted once
with exactly those two items; if it succeeds (returning one row per
input) the result carries its two rows, and if it fails all generated
content is dropped while concepts and quizzes remain. -/
theorem processYouTubeURL_one_platform_failure
    (env : PipelineEnv) (url : String) (videoInfo : VideoInfo) (tr : Transcript)
    (sc : SourceContent) (cs savedCs : List Concept)
    (hdup : env.getSourceContentByURL url = .ok none)
    (hvi : env.getVideoInfo url = .ok videoInfo)
    (htr : videoInfo.transcript = some tr)
    (hsc : env.createSourceContent ⟨"youtube", url, videoInfo.metadata.title, tr.text⟩ =
      .ok sc)
    (hec : env.extractConcepts tr.text sc.id = .ok cs)
    (hcb : env.createConceptsBatch cs = .ok savedCs)
    (hone : (platforms.filter
      (fun p => exceptIsErr (env.generateContent p savedCs))).length = 1)
    (hlen : ∀ l r, env.createGeneratedContentBatch l = .ok r → r.length = l.length) :
    (contentGenerationLoop env savedCs).length = 2
    ∧ contentGenerationLoop env savedCs =
        platforms.filterMap (fun p => exceptToOption (env.generateContent p savedCs))
    ∧ (processYouTubeURL env url).2.contentBatchArgs = [contentGenerationLoop env savedCs]
    ∧ (∀ saved,
        env.createGeneratedContentBatch (contentGenerationLoop env savedCs) = .ok saved →
        (processYouTubeURL env url).1 = .ok ⟨sc, savedCs, quizStage env savedCs, saved⟩ ∧
          saved.length = 2)
    ∧ (exceptIsErr (env.createGeneratedContentBatch (contentGenerationLoop env savedCs)) =
          true →
        (processYouTubeURL env url).1 = .ok ⟨sc, savedCs, quizStage env savedCs, []⟩) := by
  have hrun : processYouTubeURL env url =
      (.ok ⟨sc, savedCs, quizStage env savedCs, (contentStage env savedCs).1⟩,
       ⟨1, 1, savedCs.length, platforms.length, (contentStage env savedCs).2⟩) := by
    simp only [processYouTubeURL, hdup, hvi, htr, hsc, hec, hcb]
  have hlen2 : (contentGenerationLoop env savedCs).length = 2 := by
    rcases hL : env.generateContent "linkedin" savedCs with eL | cL <;>
    rcases hT : env.generateContent "twitter" savedCs with eT | cT <;>
    rcases hB : env.generateContent "blog" savedCs with eB | cB <;>
      simp [platforms, exceptIsErr, hL, hT, hB] at hone <;>
      simp [contentGenerationLoop, platforms, hL, hT, hB]
  have hfm : contentGenerationLoop env savedCs =
      platforms.filterMap (fun p => exceptToOption (env.generateContent p savedCs)) := by
    rcases hL : env.generateContent "linkedin" savedCs with eL | cL <;>
    rcases hT : env.generateContent "twitter" savedCs with eT | cT <;>
    rcases hB : env.generateContent "blog" savedCs with eB | cB <;>
      simp [platforms, exceptIsErr, hL, hT, hB] at hone <;>
      simp [contentGenerationLoop, platforms, exceptToOption, hL, hT, hB]
  have hpos : 0 < (contentGenerationLoop env savedCs).length := by rw [hlen2]; omega
  have hstage : ∀ saved,
      env.createGeneratedContentBatch (contentGenerationLoop env savedCs) = .ok saved →
      contentStage env savedCs = (saved, [contentGenerationLoop env savedCs]) := by
    intro saved hs
    simp [contentStage, hpos, hs]
  have hstageErr :
      exceptIsErr (env.createGeneratedContentBatch (contentGenerationLoop env savedCs)) =
        true →
      contentStage env savedCs = ([], [contentGenerationLoop env savedCs]) := by
    intro he
    rcases hb : env.createGeneratedContentBatch (contentGenerationLoop env savedCs) with
      e | saved
    · simp [contentStage, hpos, hb]
    · rw [hb] at he; simp [exceptIsErr] at he
  have hargs : (contentStage env savedCs).2 = [contentGenerationLoop env savedCs] := by
    rcases hb : env.createGeneratedContentBatch (contentGenerationLoop env savedCs) with
      e | saved
    · rw [hstageErr (by simp [hb, exceptIsErr])]
    · rw [hstage saved hb]
  refine ⟨hlen2, hfm, ?_, ?_, ?_⟩
  · rw [hrun]; simpa using hargs
  · intro saved hs
    constructor
    · rw [hrun]; simp [hstage saved hs]
    · rw [hlen _ _ hs, hlen2]
  · intro he
    rw [hrun]; simp [hstageErr he]

/-- C3 witness: the guarantee evaluated in a concrete environment where
exactly the `twitter` platform fails. -/
theorem processYouTubeURL_one_platform_failure_witness :
    (contentGenerationLoop envC3 [cW]).length = 2 ∧
    (processYouTubeURL envC3 "u3").2.contentBatchArgs = [contentGenerationLoop envC3 [cW]] := by
  have h := processYouTubeURL_one_platform_failure envC3 "u3" viW trW scW [cW] [cW]
    rfl rfl rfl rfl rfl rfl (by decide)
    (by intro l r hh; injection hh with hh; rw [hh])
  exact ⟨h.1, h.2.2.1⟩


end LatticeSrc
